import Mathlib

set_option maxHeartbeats 1000000

/-!
Shallow embedding of the watch-github-repo program
(src/watch_github_repo/lambda_function.py and src/watch_github_repo/utils.py)
and proofs of the specified properties.

Conventions:
* Python datetime values (naive, second precision) are the structure
  DateTime below.
* Fallible Python code is embedded as Except or Option valued functions.
* External interactions (S3, the GitHub HTTP API, the Telegram HTTP API,
  the wall clock, jinja2 rendering) are oracles gathered in an Env record;
  each function additionally returns the list of external effects it
  performed, in order.
-/

/-- Calendar date-time with second precision: the shape of a naive Python
datetime value as used by the program. -/
structure DateTime where
  year : Nat
  month : Nat
  day : Nat
  hour : Nat
  minute : Nat
  second : Nat
deriving DecidableEq

/-- Gregorian leap-year test. -/
def isLeap (y : Nat) : Bool :=
  (y % 4 == 0 && y % 100 != 0) || (y % 400 == 0)

/-- Number of days in a month of a given year. -/
def daysInMonth (y m : Nat) : Nat :=
  if m == 2 then (if isLeap y then 29 else 28)
  else if m == 4 || m == 6 || m == 9 || m == 11 then 30
  else 31

/-- Validity of a DateTime: the range checks Python datetime performs on
construction (year 1..9999, calendar-valid month and day, in-range time). -/
def DateTime.Valid (t : DateTime) : Prop :=
  1 ≤ t.year ∧ t.year ≤ 9999 ∧ 1 ≤ t.month ∧ t.month ≤ 12 ∧
  1 ≤ t.day ∧ t.day ≤ daysInMonth t.year t.month ∧
  t.hour ≤ 23 ∧ t.minute ≤ 59 ∧ t.second ≤ 59

instance (t : DateTime) : Decidable t.Valid := by
  unfold DateTime.Valid; infer_instance

/-- Days since 1970-01-01 of a civil date (standard civil-calendar
conversion, matching Python date.toordinal up to the epoch shift). -/
def daysFromCivil (y m d : Int) : Int :=
  let yy : Int := if m ≤ 2 then y - 1 else y
  let era : Int := (if 0 ≤ yy then yy else yy - 399) / 400
  let yoe : Int := yy - era * 400
  let mp : Int := if 2 < m then m - 3 else m + 9
  let doy : Int := (153 * mp + 2) / 5 + d - 1
  let doe : Int := yoe * 365 + yoe / 4 - yoe / 100 + doy
  era * 146097 + doe - 719468

/-- Civil date (year, month, day) of a number of days since 1970-01-01. -/
def civilFromDays (z0 : Int) : Int × Int × Int :=
  let z : Int := z0 + 719468
  let era : Int := (if 0 ≤ z then z else z - 146096) / 146097
  let doe : Int := z - era * 146097
  let yoe : Int := (doe - doe / 1460 + doe / 36524 - doe / 146096) / 365
  let y : Int := yoe + era * 400
  let doy : Int := doe - (365 * yoe + yoe / 4 - yoe / 100)
  let mp : Int := (5 * doy + 2) / 153
  let d : Int := doy - (153 * mp + 2) / 5 + 1
  let m : Int := if mp < 10 then mp + 3 else mp - 9
  (if m ≤ 2 then y + 1 else y, m, d)

/-- Seconds since the epoch of a DateTime. -/
def DateTime.toEpochSec (t : DateTime) : Int :=
  daysFromCivil t.year t.month t.day * 86400 +
    ((t.hour * 3600 + t.minute * 60 + t.second : Nat) : Int)

/-- DateTime of a number of seconds since the epoch. -/
def DateTime.ofEpochSec (n : Int) : DateTime :=
  let day : Int := n.ediv 86400
  let rem : Nat := (n.emod 86400).toNat
  let ymd := civilFromDays day
  ⟨ymd.1.toNat, ymd.2.1.toNat, ymd.2.2.toNat, rem / 3600, rem % 3600 / 60, rem % 60⟩

/-- Model of Python datetime minus timedelta(minutes=m): exact arithmetic
on the second-precision timeline. -/
def subMinutes (t : DateTime) (m : Nat) : DateTime :=
  DateTime.ofEpochSec (t.toEpochSec - (m : Int) * 60)

/-- Numeric value of an ASCII digit character. -/
def digitVal (c : Char) : Nat := c.toNat - 48

/-- Value of a big-endian list of ASCII digit characters. -/
def charsVal (l : List Char) : Nat :=
  l.foldl (fun a c => 10 * a + digitVal c) 0

/-- Little-endian base-10 digits, with explicit fuel so that the kernel can
evaluate it. -/
def natDigitsAux : Nat → Nat → List Nat
  | 0, _ => []
  | _ + 1, 0 => []
  | fuel + 1, n + 1 => ((n + 1) % 10) :: natDigitsAux fuel ((n + 1) / 10)

/-- Little-endian base-10 digits of n. -/
def natDigits (n : Nat) : List Nat := natDigitsAux n n

/-- Decimal digit characters of n, zero-padded on the left to the given
width. -/
def padNum (width n : Nat) : List Char :=
  let ds := ((natDigits n).map Nat.digitChar).reverse
  List.replicate (width - ds.length) '0' ++ ds

/-- utils.datetime2utc: strftime with the fixed format
YYYY-MM-DDTHH:MM:SSZ. -/
def datetime2utc (t : DateTime) : String :=
  ⟨padNum 4 t.year ++ ('-' :: (padNum 2 t.month ++ ('-' :: (padNum 2 t.day ++
    ('T' :: (padNum 2 t.hour ++ (':' :: (padNum 2 t.minute ++
    (':' :: (padNum 2 t.second ++ ['Z']))))))))))⟩

/-- Read exactly k digit characters, extending the accumulator; fails if a
non-digit (or end of input) is met first. Models the fixed 4-digit year
field of strptime. -/
def readExact : Nat → Nat → List Char → Option (Nat × List Char)
  | 0, acc, cs => some (acc, cs)
  | k + 1, acc, c :: cs =>
      if c.isDigit then readExact k (10 * acc + digitVal c) cs else none
  | _ + 1, _, [] => none

/-- Take at most k leading digit characters. -/
def takeDigits : Nat → List Char → List Char × List Char
  | 0, cs => ([], cs)
  | k + 1, c :: cs =>
      if c.isDigit then
        let r := takeDigits k cs
        (c :: r.1, r.2)
      else ([], c :: cs)
  | _ + 1, [] => ([], [])

/-- Read a number of at most maxD digits (at least one digit required).
Models the one-or-two digit numeric fields of strptime. -/
def readNum (maxD : Nat) (cs : List Char) : Option (Nat × List Char) :=
  match takeDigits maxD cs with
  | ([], _) => none
  | (ds, rest) => some (charsVal ds, rest)

/-- Consume one expected literal character. -/
def expectChar (c : Char) : List Char → Option (List Char)
  | d :: cs => if d = c then some cs else none
  | [] => none

/-- utils.utc2datetime: strptime with format YYYY-MM-DDTHH:MM:SSZ; none
models a ValueError (field mismatch, trailing input, or out-of-range
component rejected by the datetime constructor). -/
def utc2datetime (s : String) : Option DateTime :=
  (readExact 4 0 s.data).bind fun p1 =>
  (expectChar '-' p1.2).bind fun r1 =>
  (readNum 2 r1).bind fun p2 =>
  (expectChar '-' p2.2).bind fun r2 =>
  (readNum 2 r2).bind fun p3 =>
  (expectChar 'T' p3.2).bind fun r3 =>
  (readNum 2 r3).bind fun p4 =>
  (expectChar ':' p4.2).bind fun r4 =>
  (readNum 2 r4).bind fun p5 =>
  (expectChar ':' p5.2).bind fun r5 =>
  (readNum 2 r5).bind fun p6 =>
  (expectChar 'Z' p6.2).bind fun r6 =>
  match r6 with
  | [] =>
      let t : DateTime := ⟨p1.1, p2.1, p3.1, p4.1, p5.1, p6.1⟩
      if t.Valid then some t else none
  | _ => none

/-- Python str.strip restricted to whitespace: drop whitespace from both
ends. -/
def pyStrip (s : String) : String :=
  ⟨((s.data.dropWhile Char.isWhitespace).reverse.dropWhile
      Char.isWhitespace).reverse⟩

/-! Facts about the timestamp codec, leading to the round-trip property. -/

theorem natDigitsAux_eq (fuel : Nat) :
    ∀ n, n ≤ fuel → natDigitsAux fuel n = Nat.digits 10 n := by
  induction fuel with
  | zero =>
    intro n hn
    interval_cases n
    simp [natDigitsAux]
  | succ fuel ih =>
    intro n hn
    match n with
    | 0 => simp [natDigitsAux]
    | n + 1 =>
      rw [natDigitsAux, Nat.digits_def' (by norm_num : 1 < 10) (Nat.succ_pos n)]
      congr 1
      exact ih _ (Nat.le_of_lt_succ
        (Nat.lt_of_lt_of_le (Nat.div_lt_self (Nat.succ_pos n) (by norm_num)) hn))

theorem natDigits_eq (n : Nat) : natDigits n = Nat.digits 10 n :=
  natDigitsAux_eq n n le_rfl

theorem natDigits_lt (n : Nat) : ∀ d ∈ natDigits n, d < 10 := by
  rw [natDigits_eq]
  exact fun d hd => Nat.digits_lt_base (by norm_num) hd

theorem natDigits_len_le {w n : Nat} (h : n < 10 ^ w) :
    (natDigits n).length ≤ w := by
  rw [natDigits_eq]
  rcases Nat.eq_zero_or_pos n with h0 | h0
  · subst h0; simp
  · rw [Nat.digits_len 10 n (by norm_num) h0.ne']
    have hlog : Nat.log 10 n < w := Nat.log_lt_of_lt_pow h0.ne' h
    omega

theorem digitChar_isDigit {d : Nat} (h : d < 10) :
    (Nat.digitChar d).isDigit = true := by
  interval_cases d <;> decide

theorem digitVal_digitChar {d : Nat} (h : d < 10) :
    digitVal (Nat.digitChar d) = d := by
  interval_cases d <;> decide

theorem padNum_length {w n : Nat} (h : n < 10 ^ w) :
    (padNum w n).length = w := by
  have hl := natDigits_len_le h
  simp [padNum]
  omega

theorem padNum_digits {w n : Nat} :
    ∀ c ∈ padNum w n, c.isDigit = true := by
  intro c hc
  simp only [padNum, List.mem_append, List.mem_replicate, List.mem_reverse,
    List.mem_map] at hc
  rcases hc with ⟨_, rfl⟩ | ⟨d, hd, rfl⟩
  · decide
  · exact digitChar_isDigit (natDigits_lt n d hd)

theorem foldr_digitChars (l : List Nat) (h : ∀ d ∈ l, d < 10) :
    List.foldr (fun c a => 10 * a + digitVal c) 0 (l.map Nat.digitChar) =
      Nat.ofDigits 10 l := by
  induction l with
  | nil => simp [Nat.ofDigits]
  | cons d l ih =>
    simp only [List.map_cons, List.foldr_cons, Nat.ofDigits_cons]
    rw [ih (fun x hx => h x (List.mem_cons_of_mem d hx)),
      digitVal_digitChar (h d (List.mem_cons_self d l))]
    ring

theorem charsVal_leading_zeros (k : Nat) (l : List Char) :
    charsVal (List.replicate k '0' ++ l) = charsVal l := by
  induction k with
  | zero => simp
  | succ k ih =>
    simpa [charsVal, List.replicate_succ] using ih

theorem charsVal_padNum (w n : Nat) : charsVal (padNum w n) = n := by
  unfold padNum
  rw [charsVal_leading_zeros]
  unfold charsVal
  rw [List.foldl_reverse, natDigits_eq]
  have h := foldr_digitChars (Nat.digits 10 n)
    (fun d hd => Nat.digits_lt_base (by norm_num) hd)
  rw [Nat.ofDigits_digits] at h
  exact h

theorem readExact_append (l : List Char) :
    ∀ (acc : Nat) (rest : List Char), (∀ c ∈ l, c.isDigit = true) →
      readExact l.length acc (l ++ rest) =
        some (l.foldl (fun a c => 10 * a + digitVal c) acc, rest) := by
  induction l with
  | nil => intro acc rest _; simp [readExact]
  | cons c l ih =>
    intro acc rest h
    simp only [List.length_cons, List.cons_append, readExact,
      h c (List.mem_cons_self c l), if_true, List.foldl_cons]
    exact ih _ rest fun x hx => h x (List.mem_cons_of_mem c hx)

theorem readExact_padNum {w n : Nat} (h : n < 10 ^ w) (rest : List Char) :
    readExact w 0 (padNum w n ++ rest) = some (n, rest) := by
  have := readExact_append (padNum w n) 0 rest padNum_digits
  rw [padNum_length h] at this
  rw [this]
  show some (charsVal (padNum w n), rest) = some (n, rest)
  rw [charsVal_padNum]

theorem readNum_two {c1 c2 : Char} (h1 : c1.isDigit = true)
    (h2 : c2.isDigit = true) (rest : List Char) :
    readNum 2 (c1 :: c2 :: rest) = some (charsVal [c1, c2], rest) := by
  simp [readNum, takeDigits, h1, h2, charsVal]

theorem readNum_padNum {n : Nat} (h : n < 100) (rest : List Char) :
    readNum 2 (padNum 2 n ++ rest) = some (n, rest) := by
  have hlen : (padNum 2 n).length = 2 := padNum_length (by omega)
  obtain ⟨c1, c2, hcc⟩ := List.length_eq_two.mp hlen
  have h1 : c1.isDigit = true := padNum_digits c1 (by rw [hcc]; simp)
  have h2 : c2.isDigit = true := padNum_digits c2 (by rw [hcc]; simp)
  rw [hcc, List.cons_append, List.cons_append, List.nil_append,
    readNum_two h1 h2, ← hcc, charsVal_padNum]

theorem expectChar_self (c : Char) (l : List Char) :
    expectChar c (c :: l) = some l := by
  simp [expectChar]

theorem daysInMonth_le_31 (y m : Nat) : daysInMonth y m ≤ 31 := by
  unfold daysInMonth
  repeat' split
  all_goals omega

theorem string_data_of_mk (l : List Char) : (String.mk l).data = l := rfl

/-- Claim C9: encoding any valid instant of second precision to the
persisted UTC string format and decoding it back yields the same
instant. -/
theorem utc2datetime_datetime2utc (t : DateTime) (hv : t.Valid) :
    utc2datetime (datetime2utc t) = some t := by
  have hv2 := hv
  obtain ⟨h1, h2, h3, h4, h5, h6, h7, h8, h9⟩ := hv2
  have hmd := daysInMonth_le_31 t.year t.month
  have hy : t.year < 10 ^ 4 := by norm_num; omega
  have hmo : t.month < 100 := by omega
  have hdd : t.day < 100 := by omega
  have hhh : t.hour < 100 := by omega
  have hmi : t.minute < 100 := by omega
  have hss : t.second < 100 := by omega
  unfold datetime2utc utc2datetime
  simp only [string_data_of_mk, readExact_padNum hy, Option.some_bind,
    expectChar_self, readNum_padNum hmo, readNum_padNum hdd,
    readNum_padNum hhh, readNum_padNum hmi, readNum_padNum hss]
  rw [if_pos hv]

/-!
The pipeline of lambda_function.py.

External interactions are recorded as an ordered effect trace; the possible
outcomes of each external call are supplied by an Env record, one field per
call site (each call site runs at most once per invocation).
-/

/-- One external effect of an invocation, in the order performed. -/
inductive Effect
  | logInfo
  | logError
  | logException
  | s3Read (bucket key : String)
  | s3Write (bucket key content : String)
  | httpGet (repoUrl : String) (paths : List String) (since : DateTime)
  | telegramSend (token chatId text : String)
deriving DecidableEq

/-- The effect is the Telegram send attempt. -/
def Effect.isSend : Effect → Bool
  | .telegramSend _ _ _ => true
  | _ => false

/-- The effect is an S3 put of the watermark object. -/
def Effect.isS3Write : Effect → Bool
  | .s3Write _ _ _ => true
  | _ => false

/-- Raw commit record of the GitHub API, restricted to the fields the
program reads; none models a missing key (KeyError on access). -/
structure ApiDict where
  commitMessage : Option String
  committerDate : Option String
  htmlUrl : Option String
deriving DecidableEq

/-- Basic representation of a commit (dataclass Commit). -/
structure Commit where
  message : String
  timestamp : DateTime
  url : String
deriving DecidableEq

/-- Python exception kinds the pipeline can raise. -/
inductive PyErr
  | keyError
  | valueError
deriving DecidableEq

/-- Outcome of the Telegram sendMessage HTTP exchange. -/
inductive TgResult
  | urlError
  | badJson
  | okBody (ok : Bool)
deriving DecidableEq

/-- Outcomes of every external call site of one invocation. -/
structure Env where
  s3ReadResult : Except Unit String
  nowRead : DateTime
  githubResult : Except Unit (List ApiDict)
  nowWatch : DateTime
  s3WriteResult : Except Unit (Option Nat)
  telegramResult : TgResult
  render : List Commit → List String → String → String → String

/-- Commit.from_api_dict: strict field extraction; a missing key is a
KeyError (logged then re-raised), a present but malformed committer date is
a ValueError from utc2datetime (not caught there). -/
def fromApiDict (a : ApiDict) : Except PyErr Commit × List Effect :=
  match a.commitMessage with
  | none => (.error .keyError, [.logException])
  | some msg =>
    match a.committerDate with
    | none => (.error .keyError, [.logException])
    | some ds =>
      match utc2datetime ds with
      | none => (.error .valueError, [])
      | some ts =>
        match a.htmlUrl with
        | none => (.error .keyError, [.logException])
        | some u => (.ok ⟨msg, ts, u⟩, [])

/-- list(map(Commit.from_api_dict, commits)): left-to-right mapping that
stops at (and propagates) the first exception. -/
def mapCommits : List ApiDict → Except PyErr (List Commit) × List Effect
  | [] => (.ok [], [])
  | a :: rest =>
    match fromApiDict a with
    | (.error e, ef) => (.error e, ef)
    | (.ok c, ef) =>
      match mapCommits rest with
      | (.error e, ef2) => (.error e, ef ++ ef2)
      | (.ok cs, ef2) => (.ok (c :: cs), ef ++ ef2)

/-- get_last_check_date: read and parse the watermark object, falling back
to the current wall clock (nowRead) on any exception. -/
def get_last_check_date (env : Env) (bucket key : String) :
    DateTime × List Effect :=
  match env.s3ReadResult with
  | .error _ => (env.nowRead, [.s3Read bucket key, .logException])
  | .ok body =>
    match utc2datetime (pyStrip body) with
    | some d => (d, [.s3Read bucket key])
    | none => (env.nowRead, [.s3Read bucket key, .logException])

/-- write_check_date: serialize and put the watermark object; any failure
is logged and swallowed. -/
def write_check_date (env : Env) (check_date : DateTime)
    (bucket key : String) : List Effect :=
  let content := datetime2utc check_date
  match env.s3WriteResult with
  | .error _ => [.s3Write bucket key content, .logException]
  | .ok status =>
    if status = some 200 then [.s3Write bucket key content, .logInfo]
    else [.s3Write bucket key content, .logError]

/-- get_github_commits: query the repository; a request or JSON-parse
failure is logged and yields the empty list, which is then mapped through
Commit.from_api_dict (whose exceptions are not caught here). -/
def get_github_commits (env : Env) (repo_url : String)
    (files_to_watch : List String) (since : DateTime) :
    Except PyErr (List Commit) × List Effect :=
  match env.githubResult with
  | .error _ =>
    (.ok [], [.httpGet repo_url files_to_watch since, .logException])
  | .ok ds =>
    let r := mapCommits ds
    (r.1, .httpGet repo_url files_to_watch since :: r.2)

/-- send_telegram_msg: POST the message; only urllib URLError (including
HTTP error statuses) is caught; a 200 response whose body is not JSON
raises the json parse error (a ValueError) past this function. -/
def send_telegram_msg (env : Env) (msg chat_id token : String) :
    Except PyErr Unit × List Effect :=
  match env.telegramResult with
  | .urlError =>
    (.ok (), [.logInfo, .telegramSend token chat_id msg, .logException])
  | .badJson =>
    (.error .valueError, [.logInfo, .telegramSend token chat_id msg])
  | .okBody ok =>
    if ok then
      (.ok (), [.logInfo, .telegramSend token chat_id msg, .logInfo, .logInfo])
    else
      (.ok (), [.logInfo, .telegramSend token chat_id msg, .logInfo, .logError])

/-- watch_files: the orchestrator. make_telegram_msg is the external jinja2
rendering, modelled by the pure oracle env.render applied to exactly the
arguments the program passes. -/
def watch_files (env : Env) (s3_bucket s3_obj_key github_repo_api_url : String)
    (files_to_watch : List String)
    (project_name telegram_msg_template telegram_chat_id telegram_token :
      String) : Except PyErr Unit × List Effect :=
  let lcd := get_last_check_date env s3_bucket s3_obj_key
  let gc := get_github_commits env github_repo_api_url files_to_watch lcd.1
  let pre : List Effect := .logInfo :: (lcd.2 ++ (.logInfo :: gc.2))
  match gc.1 with
  | .error e => (.error e, pre)
  | .ok [] => (.ok (), pre ++ [.logInfo])
  | .ok (c :: cs) =>
    let five_min_ago := subMinutes env.nowWatch 5
    let ef3 := write_check_date env five_min_ago s3_bucket s3_obj_key
    let msg := env.render (c :: cs) files_to_watch project_name
      telegram_msg_template
    let st := send_telegram_msg env msg telegram_chat_id telegram_token
    (st.1, pre ++ (ef3 ++ (.logInfo :: st.2)))

/-- The input event, with the fields lambda_handler reads. -/
structure Event where
  s3_bucket : String
  check_date_file : String
  github_repo_api_url : String
  files_to_watch : List String
  project_name : String
  telegram_chat_id : String
  telegram_bot_token : String

/-- Module constant TELEGRAM_MSG_TEMPLATE_FILE. -/
def TELEGRAM_MSG_TEMPLATE_FILE : String := "telegram-msg.j2"

/-- lambda_handler: forwards the event fields to watch_files; it installs
no exception handling of its own. -/
def lambda_handler (env : Env) (event : Event) :
    Except PyErr Unit × List Effect :=
  watch_files env event.s3_bucket event.check_date_file
    event.github_repo_api_url event.files_to_watch event.project_name
    TELEGRAM_MSG_TEMPLATE_FILE event.telegram_chat_id
    event.telegram_bot_token

/-! Stage lemmas about the effect traces of each pipeline function. -/

theorem countP_eq_zero_of (p : Effect → Bool) (l : List Effect)
    (h : ∀ e ∈ l, p e = false) : l.countP p = 0 :=
  List.countP_eq_zero.mpr (by simpa using h)

theorem fromApiDict_effects (a : ApiDict) :
    ∀ e ∈ (fromApiDict a).2, e = .logException := by
  obtain ⟨m, dt, u⟩ := a
  intro e he
  cases m with
  | none => simp [fromApiDict] at he; exact he
  | some msg =>
    cases dt with
    | none => simp [fromApiDict] at he; exact he
    | some ds =>
      cases hp : utc2datetime ds with
      | none => simp [fromApiDict, hp] at he
      | some ts =>
        cases u with
        | none => simp [fromApiDict, hp] at he; exact he
        | some link => simp [fromApiDict, hp] at he

theorem mapCommits_effects (ds : List ApiDict) :
    ∀ e ∈ (mapCommits ds).2, e = .logException := by
  induction ds with
  | nil => intro e he; simp [mapCommits] at he
  | cons a rest ih =>
    intro e he
    unfold mapCommits at he
    rcases hfa : fromApiDict a with ⟨r, ef⟩
    have hef : ∀ x ∈ ef, x = Effect.logException := by
      intro x hx; exact fromApiDict_effects a x (by rw [hfa]; exact hx)
    rcases r with e1 | c
    · rw [hfa] at he; exact hef e he
    · rcases hmc : mapCommits rest with ⟨r2, ef2⟩
      have hef2 : ∀ x ∈ ef2, x = Effect.logException := by
        intro x hx; exact ih x (by rw [hmc]; exact hx)
      rcases r2 with e2 | cs
      all_goals
        rw [hfa, hmc] at he
        simp only [List.mem_append] at he
        rcases he with h | h
        · exact hef e h
        · exact hef2 e h

theorem get_last_check_date_effects (env : Env) (b k : String) :
    ∀ e ∈ (get_last_check_date env b k).2,
      e.isSend = false ∧ e.isS3Write = false := by
  intro e he
  unfold get_last_check_date at he
  cases h : env.s3ReadResult with
  | error u =>
    rw [h] at he
    simp at he
    rcases he with rfl | rfl <;> exact ⟨rfl, rfl⟩
  | ok body =>
    rw [h] at he
    simp only [] at he
    cases hp : utc2datetime (pyStrip body) with
    | none =>
      rw [hp] at he
      simp at he
      rcases he with rfl | rfl <;> exact ⟨rfl, rfl⟩
    | some d =>
      rw [hp] at he
      simp at he
      subst he
      exact ⟨rfl, rfl⟩

theorem get_github_commits_effects (env : Env) (u : String)
    (fs : List String) (since : DateTime) :
    ∀ e ∈ (get_github_commits env u fs since).2,
      e.isSend = false ∧ e.isS3Write = false := by
  intro e he
  unfold get_github_commits at he
  cases h : env.githubResult with
  | error x =>
    rw [h] at he
    simp at he
    rcases he with rfl | rfl <;> exact ⟨rfl, rfl⟩
  | ok ds =>
    rw [h] at he
    simp at he
    rcases he with rfl | hmem
    · exact ⟨rfl, rfl⟩
    · rw [mapCommits_effects ds e hmem]; exact ⟨rfl, rfl⟩

theorem write_check_date_shape (env : Env) (d : DateTime) (b k : String) :
    ∃ lg, (lg = Effect.logException ∨ lg = Effect.logInfo ∨
        lg = Effect.logError) ∧
      write_check_date env d b k = [.s3Write b k (datetime2utc d), lg] := by
  unfold write_check_date
  cases env.s3WriteResult with
  | error x => exact ⟨.logException, Or.inl rfl, rfl⟩
  | ok status =>
    by_cases hs : status = some 200
    · exact ⟨.logInfo, Or.inr (Or.inl rfl), by simp [hs]⟩
    · exact ⟨.logError, Or.inr (Or.inr rfl), by simp [hs]⟩

theorem send_telegram_msg_shape (env : Env) (msg chat token : String) :
    ∃ post : List Effect,
      (send_telegram_msg env msg chat token).2 =
        .logInfo :: (.telegramSend token chat msg :: post) ∧
      (∀ e ∈ post, e.isSend = false ∧ e.isS3Write = false) := by
  unfold send_telegram_msg
  cases env.telegramResult with
  | urlError =>
    refine ⟨[.logException], rfl, ?_⟩
    intro e he; simp at he; subst he; exact ⟨rfl, rfl⟩
  | badJson =>
    exact ⟨[], rfl, by intro e he; simp at he⟩
  | okBody ok =>
    cases ok
    · refine ⟨[.logInfo, .logError], by simp, ?_⟩
      intro e he; simp at he
      rcases he with rfl | rfl <;> exact ⟨rfl, rfl⟩
    · refine ⟨[.logInfo, .logInfo], by simp, ?_⟩
      intro e he; simp at he
      subst he; exact ⟨rfl, rfl⟩

@[simp] theorem Effect.isSend_logInfo : Effect.isSend .logInfo = false := rfl

@[simp] theorem Effect.isSend_logError : Effect.isSend .logError = false := rfl

@[simp] theorem Effect.isSend_logException :
    Effect.isSend .logException = false := rfl

@[simp] theorem Effect.isSend_s3Read (b k : String) :
    Effect.isSend (.s3Read b k) = false := rfl

@[simp] theorem Effect.isSend_s3Write (b k c : String) :
    Effect.isSend (.s3Write b k c) = false := rfl

@[simp] theorem Effect.isSend_httpGet (u : String) (ps : List String)
    (s : DateTime) : Effect.isSend (.httpGet u ps s) = false := rfl

@[simp] theorem Effect.isSend_telegramSend (t c m : String) :
    Effect.isSend (.telegramSend t c m) = true := rfl

@[simp] theorem Effect.isS3Write_logInfo :
    Effect.isS3Write .logInfo = false := rfl

@[simp] theorem Effect.isS3Write_logError :
    Effect.isS3Write .logError = false := rfl

@[simp] theorem Effect.isS3Write_logException :
    Effect.isS3Write .logException = false := rfl

@[simp] theorem Effect.isS3Write_s3Read (b k : String) :
    Effect.isS3Write (.s3Read b k) = false := rfl

@[simp] theorem Effect.isS3Write_s3Write (b k c : String) :
    Effect.isS3Write (.s3Write b k c) = true := rfl

@[simp] theorem Effect.isS3Write_httpGet (u : String) (ps : List String)
    (s : DateTime) : Effect.isS3Write (.httpGet u ps s) = false := rfl

@[simp] theorem Effect.isS3Write_telegramSend (t c m : String) :
    Effect.isS3Write (.telegramSend t c m) = false := rfl

theorem watch_files_found (env : Env) (b k url : String) (fs : List String)
    (pn tmpl chat token : String) (c : Commit) (cs : List Commit)
    (hq : (get_github_commits env url fs (get_last_check_date env b k).1).1 =
      .ok (c :: cs)) :
    watch_files env b k url fs pn tmpl chat token =
      ((send_telegram_msg env (env.render (c :: cs) fs pn tmpl) chat token).1,
        .logInfo :: ((get_last_check_date env b k).2 ++
          (.logInfo :: (get_github_commits env url fs
            (get_last_check_date env b k).1).2)) ++
          (write_check_date env (subMinutes env.nowWatch 5) b k ++
            (.logInfo :: (send_telegram_msg env
              (env.render (c :: cs) fs pn tmpl) chat token).2))) := by
  simp only [watch_files]
  rw [hq]

theorem watch_files_empty (env : Env) (b k url : String) (fs : List String)
    (pn tmpl chat token : String)
    (hq : (get_github_commits env url fs (get_last_check_date env b k).1).1 =
      .ok []) :
    watch_files env b k url fs pn tmpl chat token =
      (.ok (), .logInfo :: ((get_last_check_date env b k).2 ++
        (.logInfo :: (get_github_commits env url fs
          (get_last_check_date env b k).1).2)) ++ [.logInfo]) := by
  simp only [watch_files]
  rw [hq]

theorem watch_files_error (env : Env) (b k url : String) (fs : List String)
    (pn tmpl chat token : String) (err : PyErr)
    (hq : (get_github_commits env url fs (get_last_check_date env b k).1).1 =
      .error err) :
    watch_files env b k url fs pn tmpl chat token =
      (.error err, .logInfo :: ((get_last_check_date env b k).2 ++
        (.logInfo :: (get_github_commits env url fs
          (get_last_check_date env b k).1).2))) := by
  simp only [watch_files]
  rw [hq]

/-- Claim C1: when the commit query yields a non-empty batch, the orchestrator
performs exactly one watermark write, whose content is the encoding of the
wall clock minus the five-minute safety lag, performs exactly one
notification send (of the single rendered message for the whole batch),
and the write precedes the send in the effect trace. -/
theorem c1_nonempty_advances_watermark_then_notifies_once (env : Env)
    (b k url : String) (fs : List String) (pn tmpl chat token : String)
    (commits : List Commit)
    (hq : (get_github_commits env url fs (get_last_check_date env b k).1).1 =
      .ok commits)
    (hne : commits ≠ []) :
    (watch_files env b k url fs pn tmpl chat token).2.countP
        Effect.isSend = 1 ∧
    (watch_files env b k url fs pn tmpl chat token).2.countP
        Effect.isS3Write = 1 ∧
    Effect.s3Write b k (datetime2utc (subMinutes env.nowWatch 5)) ∈
      (watch_files env b k url fs pn tmpl chat token).2 ∧
    Effect.telegramSend token chat (env.render commits fs pn tmpl) ∈
      (watch_files env b k url fs pn tmpl chat token).2 ∧
    ∃ l1 l2, (watch_files env b k url fs pn tmpl chat token).2 = l1 ++ l2 ∧
      Effect.s3Write b k (datetime2utc (subMinutes env.nowWatch 5)) ∈ l1 ∧
      l1.countP Effect.isSend = 0 := by
  match commits, hne with
  | c :: cs, _ =>
  have hw := watch_files_found env b k url fs pn tmpl chat token c cs hq
  have htr : (watch_files env b k url fs pn tmpl chat token).2 =
      .logInfo :: ((get_last_check_date env b k).2 ++
        (.logInfo :: (get_github_commits env url fs
          (get_last_check_date env b k).1).2)) ++
        (write_check_date env (subMinutes env.nowWatch 5) b k ++
          (.logInfo :: (send_telegram_msg env
            (env.render (c :: cs) fs pn tmpl) chat token).2)) := by
    rw [hw]
  obtain ⟨lg, hlg, hwcd⟩ :=
    write_check_date_shape env (subMinutes env.nowWatch 5) b k
  obtain ⟨post, hsend, hpost⟩ := send_telegram_msg_shape env
    (env.render (c :: cs) fs pn tmpl) chat token
  have hlgS : lg.isSend = false := by
    rcases hlg with rfl | rfl | rfl <;> rfl
  have hlgW : lg.isS3Write = false := by
    rcases hlg with rfl | rfl | rfl <;> rfl
  have hl1S : (get_last_check_date env b k).2.countP Effect.isSend = 0 :=
    countP_eq_zero_of _ _
      (fun e he => (get_last_check_date_effects env b k e he).1)
  have hl1W : (get_last_check_date env b k).2.countP Effect.isS3Write = 0 :=
    countP_eq_zero_of _ _
      (fun e he => (get_last_check_date_effects env b k e he).2)
  have hl2S : (get_github_commits env url fs
      (get_last_check_date env b k).1).2.countP Effect.isSend = 0 :=
    countP_eq_zero_of _ _
      (fun e he => (get_github_commits_effects env url fs _ e he).1)
  have hl2W : (get_github_commits env url fs
      (get_last_check_date env b k).1).2.countP Effect.isS3Write = 0 :=
    countP_eq_zero_of _ _
      (fun e he => (get_github_commits_effects env url fs _ e he).2)
  have hpS : post.countP Effect.isSend = 0 :=
    countP_eq_zero_of _ _ (fun e he => (hpost e he).1)
  have hpW : post.countP Effect.isS3Write = 0 :=
    countP_eq_zero_of _ _ (fun e he => (hpost e he).2)
  refine ⟨?_, ?_, ?_, ?_, ?_⟩
  · rw [htr, hsend, hwcd]
    simp [List.countP_append, List.countP_cons, hlgS, hl1S, hl2S, hpS]
  · rw [htr, hsend, hwcd]
    simp [List.countP_append, List.countP_cons, hlgW, hl1W, hl2W, hpW]
  · rw [htr, hwcd]; simp
  · rw [htr, hsend]; simp
  · refine ⟨Effect.logInfo :: ((get_last_check_date env b k).2 ++
      (Effect.logInfo :: (get_github_commits env url fs
        (get_last_check_date env b k).1).2)) ++
        write_check_date env (subMinutes env.nowWatch 5) b k,
      Effect.logInfo :: (send_telegram_msg env
        (env.render (c :: cs) fs pn tmpl) chat token).2, ?_, ?_, ?_⟩
    · rw [htr, List.append_assoc]
    · rw [hwcd]; simp
    · rw [hwcd]
      simp [List.countP_append, List.countP_cons, hlgS, hl1S, hl2S]

theorem filter_eq_nil_of (p : Effect → Bool) (l : List Effect)
    (h : ∀ e ∈ l, p e = false) : l.filter p = [] :=
  List.filter_eq_nil_iff.mpr (by simpa using h)

/-- Claim C2: when the commit query yields the empty sequence, the invocation
ends successfully with no watermark write and no notification send in its
effect trace. -/
theorem c2_empty_means_no_side_effects (env : Env)
    (b k url : String) (fs : List String) (pn tmpl chat token : String)
    (hq : (get_github_commits env url fs (get_last_check_date env b k).1).1 =
      .ok []) :
    (watch_files env b k url fs pn tmpl chat token).1 = .ok () ∧
    (watch_files env b k url fs pn tmpl chat token).2.countP
        Effect.isS3Write = 0 ∧
    (watch_files env b k url fs pn tmpl chat token).2.countP
        Effect.isSend = 0 := by
  have hw := watch_files_empty env b k url fs pn tmpl chat token hq
  have hl1S : (get_last_check_date env b k).2.countP Effect.isSend = 0 :=
    countP_eq_zero_of _ _
      (fun e he => (get_last_check_date_effects env b k e he).1)
  have hl1W : (get_last_check_date env b k).2.countP Effect.isS3Write = 0 :=
    countP_eq_zero_of _ _
      (fun e he => (get_last_check_date_effects env b k e he).2)
  have hl2S : (get_github_commits env url fs
      (get_last_check_date env b k).1).2.countP Effect.isSend = 0 :=
    countP_eq_zero_of _ _
      (fun e he => (get_github_commits_effects env url fs _ e he).1)
  have hl2W : (get_github_commits env url fs
      (get_last_check_date env b k).1).2.countP Effect.isS3Write = 0 :=
    countP_eq_zero_of _ _
      (fun e he => (get_github_commits_effects env url fs _ e he).2)
  refine ⟨?_, ?_, ?_⟩
  · rw [hw]
  · rw [hw]
    simp [List.countP_append, List.countP_cons, hl1W, hl2W]
  · rw [hw]
    simp [List.countP_append, List.countP_cons, hl1S, hl2S]

/-- Claim C3: when commits are found, the only watermark write of the invocation
is the one performed before the send attempt (value now minus the lag);
the write-trace is the same whatever the Telegram outcome is, and every
write precedes every send. -/
theorem c3_send_failure_does_not_touch_watermark (env : Env)
    (b k url : String) (fs : List String) (pn tmpl chat token : String)
    (commits : List Commit)
    (hq : (get_github_commits env url fs (get_last_check_date env b k).1).1 =
      .ok commits)
    (hne : commits ≠ []) :
    (watch_files env b k url fs pn tmpl chat token).2.filter
        Effect.isS3Write =
      [.s3Write b k (datetime2utc (subMinutes env.nowWatch 5))] ∧
    (∀ x : TgResult,
      (watch_files { env with telegramResult := x } b k url fs pn tmpl chat
          token).2.filter Effect.isS3Write =
        [.s3Write b k (datetime2utc (subMinutes env.nowWatch 5))]) ∧
    ∃ l1 l2, (watch_files env b k url fs pn tmpl chat token).2 = l1 ++ l2 ∧
      l1.countP Effect.isSend = 0 ∧ l2.countP Effect.isS3Write = 0 ∧
      l2.countP Effect.isSend = 1 := by
  match commits, hne with
  | c :: cs, _ =>
  have key : ∀ env2 : Env, env2.s3ReadResult = env.s3ReadResult →
      env2.nowRead = env.nowRead → env2.githubResult = env.githubResult →
      env2.nowWatch = env.nowWatch → env2.render = env.render →
      (watch_files env2 b k url fs pn tmpl chat token).2.filter
          Effect.isS3Write =
        [.s3Write b k (datetime2utc (subMinutes env2.nowWatch 5))] := by
    intro env2 e1 e2 e3 e4 e5
    have hq2 : (get_github_commits env2 url fs
        (get_last_check_date env2 b k).1).1 = .ok (c :: cs) := by
      have hlcd : get_last_check_date env2 b k = get_last_check_date env b k := by
        unfold get_last_check_date
        rw [e1, e2]
      unfold get_github_commits
      rw [e3, hlcd]
      exact hq
    have hw := watch_files_found env2 b k url fs pn tmpl chat token c cs hq2
    obtain ⟨lg, hlg, hwcd⟩ :=
      write_check_date_shape env2 (subMinutes env2.nowWatch 5) b k
    obtain ⟨post, hsend, hpost⟩ := send_telegram_msg_shape env2
      (env2.render (c :: cs) fs pn tmpl) chat token
    have hlgW : lg.isS3Write = false := by
      rcases hlg with rfl | rfl | rfl <;> rfl
    have hf1 : (get_last_check_date env2 b k).2.filter Effect.isS3Write = [] :=
      filter_eq_nil_of _ _
        (fun e he => (get_last_check_date_effects env2 b k e he).2)
    have hf2 : (get_github_commits env2 url fs
        (get_last_check_date env2 b k).1).2.filter Effect.isS3Write = [] :=
      filter_eq_nil_of _ _
        (fun e he => (get_github_commits_effects env2 url fs _ e he).2)
    have hf3 : post.filter Effect.isS3Write = [] :=
      filter_eq_nil_of _ _ (fun e he => (hpost e he).2)
    rw [hw]
    show (Effect.logInfo :: ((get_last_check_date env2 b k).2 ++
      (.logInfo :: (get_github_commits env2 url fs
        (get_last_check_date env2 b k).1).2)) ++
      (write_check_date env2 (subMinutes env2.nowWatch 5) b k ++
        (.logInfo :: (send_telegram_msg env2
          (env2.render (c :: cs) fs pn tmpl) chat token).2))).filter
      Effect.isS3Write = _
    rw [hwcd, hsend]
    simp [List.filter_append, List.filter_cons, hf1, hf2, hf3, hlgW]
  refine ⟨key env rfl rfl rfl rfl rfl, ?_, ?_⟩
  · intro x
    exact key { env with telegramResult := x } rfl rfl rfl rfl rfl
  · have hw := watch_files_found env b k url fs pn tmpl chat token c cs hq
    have htr : (watch_files env b k url fs pn tmpl chat token).2 =
        .logInfo :: ((get_last_check_date env b k).2 ++
          (.logInfo :: (get_github_commits env url fs
            (get_last_check_date env b k).1).2)) ++
          (write_check_date env (subMinutes env.nowWatch 5) b k ++
            (.logInfo :: (send_telegram_msg env
              (env.render (c :: cs) fs pn tmpl) chat token).2)) := by
      rw [hw]
    obtain ⟨lg, hlg, hwcd⟩ :=
      write_check_date_shape env (subMinutes env.nowWatch 5) b k
    obtain ⟨post, hsend, hpost⟩ := send_telegram_msg_shape env
      (env.render (c :: cs) fs pn tmpl) chat token
    have hlgS : lg.isSend = false := by
      rcases hlg with rfl | rfl | rfl <;> rfl
    have hl1S : (get_last_check_date env b k).2.countP Effect.isSend = 0 :=
      countP_eq_zero_of _ _
        (fun e he => (get_last_check_date_effects env b k e he).1)
    have hl2S : (get_github_commits env url fs
        (get_last_check_date env b k).1).2.countP Effect.isSend = 0 :=
      countP_eq_zero_of _ _
        (fun e he => (get_github_commits_effects env url fs _ e he).1)
    have hpS : post.countP Effect.isSend = 0 :=
      countP_eq_zero_of _ _ (fun e he => (hpost e he).1)
    have hpW : post.countP Effect.isS3Write = 0 :=
      countP_eq_zero_of _ _ (fun e he => (hpost e he).2)
    refine ⟨Effect.logInfo :: ((get_last_check_date env b k).2 ++
        (Effect.logInfo :: (get_github_commits env url fs
          (get_last_check_date env b k).1).2)) ++
        write_check_date env (subMinutes env.nowWatch 5) b k,
      Effect.logInfo :: (send_telegram_msg env
        (env.render (c :: cs) fs pn tmpl) chat token).2, ?_, ?_, ?_, ?_⟩
    · rw [htr, List.append_assoc]
    · rw [hwcd]
      simp [List.countP_append, List.countP_cons, hlgS, hl1S, hl2S]
    · rw [hsend]
      simp [List.countP_append, List.countP_cons, hpW]
    · rw [hsend]
      simp [List.countP_append, List.countP_cons, hpS]

/-! Claim C4 and the remaining error-handling claims. -/

/-- Claim C4 (amended): lambda_handler installs no exception handling: any error
raised by the pipeline propagates unchanged out of the handler. -/
theorem c4_handler_propagates_exceptions (env : Env) (e : Event)
    (err : PyErr)
    (h : (watch_files env e.s3_bucket e.check_date_file
      e.github_repo_api_url e.files_to_watch e.project_name
      TELEGRAM_MSG_TEMPLATE_FILE e.telegram_chat_id
      e.telegram_bot_token).1 = Except.error err) :
    (lambda_handler env e).1 = Except.error err := h

/-- A GitHub record with every required field missing. -/
def badDict : ApiDict := ⟨none, none, none⟩

/-- A well-formed GitHub commit record. -/
def goodDict : ApiDict :=
  ⟨some "fix typo", some "2024-01-01T00:00:00Z",
    some "https://example.com/commit/abc"⟩

/-- The Commit value goodDict maps to. -/
def goodCommit : Commit :=
  ⟨"fix typo", ⟨2024, 1, 1, 0, 0, 0⟩, "https://example.com/commit/abc"⟩

/-- Environment of a fully successful invocation finding one new commit. -/
def envHappy : Env where
  s3ReadResult := .ok "2023-12-01T10:00:00Z"
  nowRead := ⟨2024, 1, 2, 0, 0, 0⟩
  githubResult := .ok [goodDict]
  nowWatch := ⟨2024, 1, 2, 12, 0, 0⟩
  s3WriteResult := .ok (some 200)
  telegramResult := .okBody true
  render := fun _ _ _ _ => "msg"

/-- Like envHappy but the GitHub response holds a malformed record. -/
def envBadRecord : Env := { envHappy with githubResult := .ok [badDict] }

/-- Like envHappy but the GitHub response is an empty array. -/
def envNoCommits : Env := { envHappy with githubResult := .ok [] }

/-- Like envHappy but the GitHub request or its JSON parse fails. -/
def envGithubDown : Env := { envHappy with githubResult := .error () }

/-- Like envHappy but the watermark read raises. -/
def envReadFail : Env := { envHappy with s3ReadResult := .error () }

/-- Like envHappy but the watermark write raises. -/
def envWriteFail : Env := { envHappy with s3WriteResult := .error () }

/-- Like envHappy but the Telegram response body is not valid JSON. -/
def envBadJson : Env := { envHappy with telegramResult := .badJson }

/-- A well-formed invocation event. -/
def sampleEvent : Event :=
  ⟨"bkt", "last-check.txt", "https://api.github.com/repos/o/r/commits",
    ["README.md"], "proj", "chat", "tok"⟩

/-- Claim C4 counterexample: a malformed commit record makes the whole
invocation end in an uncaught KeyError: the handler result is the error,
not a converted generic failure value. -/
theorem c4_counterexample_uncaught_keyerror :
    (lambda_handler envBadRecord sampleEvent).1 =
      Except.error PyErr.keyError := by
  rfl

theorem mapCommits_ok_all (ds : List ApiDict) (cs : List Commit)
    (h : (mapCommits ds).1 = .ok cs) :
    ∀ a ∈ ds, ∃ c, (fromApiDict a).1 = .ok c := by
  induction ds generalizing cs with
  | nil => intro a ha; simp at ha
  | cons a0 rest ih =>
    intro a ha
    unfold mapCommits at h
    rcases hfa : fromApiDict a0 with ⟨r, ef⟩
    rw [hfa] at h
    rcases r with e | c0
    · simp at h
    · rcases hmc : mapCommits rest with ⟨r2, ef2⟩
      rw [hmc] at h
      rcases r2 with e2 | cs2
      · simp at h
      · rcases List.mem_cons.mp ha with rfl | hmem
        · exact ⟨c0, by rw [hfa]⟩
        · exact ih cs2 (by rw [hmc]) a hmem

theorem fromApiDict_missing (a : ApiDict)
    (h : a.commitMessage = none ∨ a.committerDate = none ∨
      a.htmlUrl = none) :
    ∃ err, (fromApiDict a).1 = .error err := by
  obtain ⟨m, dt, u⟩ := a
  rcases h with h | h | h
  · cases m with
    | none => exact ⟨.keyError, by simp [fromApiDict]⟩
    | some _ => simp at h
  · cases m with
    | none => exact ⟨.keyError, by simp [fromApiDict]⟩
    | some msg =>
      cases dt with
      | none => exact ⟨.keyError, by simp [fromApiDict]⟩
      | some _ => simp at h
  · cases m with
    | none => exact ⟨.keyError, by simp [fromApiDict]⟩
    | some msg =>
      cases dt with
      | none => exact ⟨.keyError, by simp [fromApiDict]⟩
      | some ds =>
        cases hp : utc2datetime ds with
        | none => exact ⟨.valueError, by simp [fromApiDict, hp]⟩
        | some ts =>
          cases u with
          | none => exact ⟨.keyError, by simp [fromApiDict, hp]⟩
          | some _ => simp at h

/-- Claim C5: if the GitHub response holds a record missing a required field,
the whole query raises instead of returning a partial list. -/
theorem c5_malformed_record_fails_whole_query (env : Env) (url : String)
    (fs : List String) (since : DateTime) (ds : List ApiDict) (a : ApiDict)
    (hds : env.githubResult = .ok ds) (ha : a ∈ ds)
    (hbad : a.commitMessage = none ∨ a.committerDate = none ∨
      a.htmlUrl = none) :
    ∃ err, (get_github_commits env url fs since).1 = .error err := by
  unfold get_github_commits
  rw [hds]
  cases hr : (mapCommits ds).1 with
  | error e => exact ⟨e, by simp [hr]⟩
  | ok cs =>
    obtain ⟨c, hc⟩ := mapCommits_ok_all ds cs hr a ha
    obtain ⟨err, herr⟩ := fromApiDict_missing a hbad
    rw [hc] at herr
    exact absurd herr (by simp)

/-- Claim C6: a failed GitHub request or response parse yields the empty commit
list after logging, and the invocation then completes successfully with no
watermark write and no notification send. -/
theorem c6_network_failure_treated_as_no_commits (env : Env)
    (b k url : String) (fs : List String) (pn tmpl chat token : String)
    (h : env.githubResult = .error ()) :
    get_github_commits env url fs (get_last_check_date env b k).1 =
      (.ok [], [.httpGet url fs (get_last_check_date env b k).1,
        .logException]) ∧
    (watch_files env b k url fs pn tmpl chat token).1 = .ok () ∧
    (watch_files env b k url fs pn tmpl chat token).2.countP
        Effect.isS3Write = 0 ∧
    (watch_files env b k url fs pn tmpl chat token).2.countP
        Effect.isSend = 0 := by
  have hgc : get_github_commits env url fs (get_last_check_date env b k).1 =
      (.ok [], [.httpGet url fs (get_last_check_date env b k).1,
        .logException]) := by
    unfold get_github_commits
    rw [h]
  have hq : (get_github_commits env url fs
      (get_last_check_date env b k).1).1 = .ok [] := by rw [hgc]
  have hw := watch_files_empty env b k url fs pn tmpl chat token hq
  have hl1S : (get_last_check_date env b k).2.countP Effect.isSend = 0 :=
    countP_eq_zero_of _ _
      (fun e he => (get_last_check_date_effects env b k e he).1)
  have hl1W : (get_last_check_date env b k).2.countP Effect.isS3Write = 0 :=
    countP_eq_zero_of _ _
      (fun e he => (get_last_check_date_effects env b k e he).2)
  refine ⟨hgc, ?_, ?_, ?_⟩
  · rw [hw]
  · rw [hw, hgc]
    simp [List.countP_append, List.countP_cons, hl1W]
  · rw [hw, hgc]
    simp [List.countP_append, List.countP_cons, hl1S]

/-- Claim C7: any failing watermark read (read exception or unparsable content)
returns the wall clock of the call as fallback, after logging. -/
theorem c7_read_failure_falls_back_to_now (env : Env) (b k : String)
    (hfail : env.s3ReadResult = .error () ∨
      ∃ s, env.s3ReadResult = .ok s ∧ utc2datetime (pyStrip s) = none) :
    (get_last_check_date env b k).1 = env.nowRead ∧
    Effect.logException ∈ (get_last_check_date env b k).2 := by
  rcases hfail with h | ⟨s, hs, hp⟩
  · unfold get_last_check_date
    rw [h]
    exact ⟨rfl, by simp⟩
  · unfold get_last_check_date
    rw [hs]
    simp [hp]

/-- Claim C10: only transport errors are caught by the sender: a success-status
response whose body is not valid JSON makes send_telegram_msg raise the
parse ValueError past its boundary, with no failure log. -/
theorem c10_send_raises_on_nonjson_response (env : Env)
    (msg chat token : String) (h : env.telegramResult = .badJson) :
    send_telegram_msg env msg chat token =
      (.error .valueError, [.logInfo, .telegramSend token chat msg]) := by
  unfold send_telegram_msg
  rw [h]

/-- Claim C8: a failing watermark write (exception or non-200 store response) is
logged and returns normally, and the orchestrator still performs exactly
one notification send for the commits found. -/
theorem c8_write_failure_still_notifies (env : Env)
    (b k url : String) (fs : List String) (pn tmpl chat token : String)
    (commits : List Commit)
    (hq : (get_github_commits env url fs (get_last_check_date env b k).1).1 =
      .ok commits)
    (hne : commits ≠ [])
    (hfail : env.s3WriteResult = .error () ∨
      ∃ st, env.s3WriteResult = .ok st ∧ st ≠ some 200) :
    (∃ lg, (lg = Effect.logException ∨ lg = Effect.logError) ∧
      write_check_date env (subMinutes env.nowWatch 5) b k =
        [.s3Write b k (datetime2utc (subMinutes env.nowWatch 5)), lg]) ∧
    (watch_files env b k url fs pn tmpl chat token).2.countP
        Effect.isSend = 1 := by
  match commits, hne with
  | c :: cs, _ =>
  constructor
  · rcases hfail with h | ⟨st, hst, hne200⟩
    · refine ⟨.logException, Or.inl rfl, ?_⟩
      unfold write_check_date
      rw [h]
    · refine ⟨.logError, Or.inr rfl, ?_⟩
      unfold write_check_date
      rw [hst]
      simp [hne200]
  · have hw := watch_files_found env b k url fs pn tmpl chat token c cs hq
    obtain ⟨lg, hlg, hwcd⟩ :=
      write_check_date_shape env (subMinutes env.nowWatch 5) b k
    obtain ⟨post, hsend, hpost⟩ := send_telegram_msg_shape env
      (env.render (c :: cs) fs pn tmpl) chat token
    have hlgS : lg.isSend = false := by
      rcases hlg with rfl | rfl | rfl <;> rfl
    have hl1S : (get_last_check_date env b k).2.countP Effect.isSend = 0 :=
      countP_eq_zero_of _ _
        (fun e he => (get_last_check_date_effects env b k e he).1)
    have hl2S : (get_github_commits env url fs
        (get_last_check_date env b k).1).2.countP Effect.isSend = 0 :=
      countP_eq_zero_of _ _
        (fun e he => (get_github_commits_effects env url fs _ e he).1)
    have hpS : post.countP Effect.isSend = 0 :=
      countP_eq_zero_of _ _ (fun e he => (hpost e he).1)
    rw [hw]
    show (Effect.logInfo :: ((get_last_check_date env b k).2 ++
      (.logInfo :: (get_github_commits env url fs
        (get_last_check_date env b k).1).2)) ++
      (write_check_date env (subMinutes env.nowWatch 5) b k ++
        (.logInfo :: (send_telegram_msg env
          (env.render (c :: cs) fs pn tmpl) chat token).2))).countP
      Effect.isSend = 1
    rw [hwcd, hsend]
    simp [List.countP_append, List.countP_cons, hlgS, hl1S, hl2S, hpS]

/-! Witnesses: each hypothesised claim theorem applied at a concrete
environment. -/

/-- Witness for claim C1 at the happy-path environment. -/
theorem c1_witness :
    ((get_github_commits envHappy "u" ["f"]
        (get_last_check_date envHappy "b" "k").1).1 = .ok [goodCommit]) ∧
    ([goodCommit] ≠ ([] : List Commit)) ∧
    ((watch_files envHappy "b" "k" "u" ["f"] "p" "t" "c" "tk").2.countP
        Effect.isSend = 1 ∧
      (watch_files envHappy "b" "k" "u" ["f"] "p" "t" "c" "tk").2.countP
        Effect.isS3Write = 1 ∧
      Effect.s3Write "b" "k"
          (datetime2utc (subMinutes envHappy.nowWatch 5)) ∈
        (watch_files envHappy "b" "k" "u" ["f"] "p" "t" "c" "tk").2 ∧
      Effect.telegramSend "tk" "c"
          (envHappy.render [goodCommit] ["f"] "p" "t") ∈
        (watch_files envHappy "b" "k" "u" ["f"] "p" "t" "c" "tk").2 ∧
      ∃ l1 l2,
        (watch_files envHappy "b" "k" "u" ["f"] "p" "t" "c" "tk").2 =
          l1 ++ l2 ∧
        Effect.s3Write "b" "k"
          (datetime2utc (subMinutes envHappy.nowWatch 5)) ∈ l1 ∧
        l1.countP Effect.isSend = 0) :=
  ⟨rfl, by simp,
    c1_nonempty_advances_watermark_then_notifies_once envHappy "b" "k" "u"
      ["f"] "p" "t" "c" "tk" [goodCommit] rfl (by simp)⟩

/-- Witness for claim C2 at an environment returning zero commits. -/
theorem c2_witness :
    ((get_github_commits envNoCommits "u" ["f"]
        (get_last_check_date envNoCommits "b" "k").1).1 = .ok []) ∧
    ((watch_files envNoCommits "b" "k" "u" ["f"] "p" "t" "c" "tk").1 =
        .ok () ∧
      (watch_files envNoCommits "b" "k" "u" ["f"] "p" "t" "c" "tk").2.countP
        Effect.isS3Write = 0 ∧
      (watch_files envNoCommits "b" "k" "u" ["f"] "p" "t" "c" "tk").2.countP
        Effect.isSend = 0) :=
  ⟨rfl, c2_empty_means_no_side_effects envNoCommits "b" "k" "u" ["f"] "p"
    "t" "c" "tk" rfl⟩

/-- Witness for claim C3 at the happy-path environment. -/
theorem c3_witness :
    ((get_github_commits envHappy "u" ["f"]
        (get_last_check_date envHappy "b" "k").1).1 = .ok [goodCommit]) ∧
    ([goodCommit] ≠ ([] : List Commit)) ∧
    ((watch_files envHappy "b" "k" "u" ["f"] "p" "t" "c" "tk").2.filter
        Effect.isS3Write =
      [.s3Write "b" "k" (datetime2utc (subMinutes envHappy.nowWatch 5))] ∧
    (∀ x : TgResult,
      (watch_files { envHappy with telegramResult := x } "b" "k" "u" ["f"]
          "p" "t" "c" "tk").2.filter Effect.isS3Write =
        [.s3Write "b" "k"
          (datetime2utc (subMinutes envHappy.nowWatch 5))]) ∧
    ∃ l1 l2,
      (watch_files envHappy "b" "k" "u" ["f"] "p" "t" "c" "tk").2 =
        l1 ++ l2 ∧
      l1.countP Effect.isSend = 0 ∧ l2.countP Effect.isS3Write = 0 ∧
      l2.countP Effect.isSend = 1) :=
  ⟨rfl, by simp,
    c3_send_failure_does_not_touch_watermark envHappy "b" "k" "u" ["f"] "p"
      "t" "c" "tk" [goodCommit] rfl (by simp)⟩

/-- Witness for the amended claim C4 at the malformed-record
environment. -/
theorem c4_witness :
    ((watch_files envBadRecord sampleEvent.s3_bucket
        sampleEvent.check_date_file sampleEvent.github_repo_api_url
        sampleEvent.files_to_watch sampleEvent.project_name
        TELEGRAM_MSG_TEMPLATE_FILE sampleEvent.telegram_chat_id
        sampleEvent.telegram_bot_token).1 = Except.error PyErr.keyError) ∧
    (lambda_handler envBadRecord sampleEvent).1 =
      Except.error PyErr.keyError :=
  ⟨rfl, c4_handler_propagates_exceptions envBadRecord sampleEvent
    PyErr.keyError rfl⟩

/-- Witness for claim C5 at the malformed-record environment. -/
theorem c5_witness :
    (envBadRecord.githubResult = .ok [badDict]) ∧ (badDict ∈ [badDict]) ∧
    (badDict.commitMessage = none ∨ badDict.committerDate = none ∨
      badDict.htmlUrl = none) ∧
    ∃ err, (get_github_commits envBadRecord "u" ["f"]
      ⟨2024, 1, 1, 0, 0, 0⟩).1 = .error err :=
  ⟨rfl, by simp, Or.inl rfl,
    c5_malformed_record_fails_whole_query envBadRecord "u" ["f"]
      ⟨2024, 1, 1, 0, 0, 0⟩ [badDict] badDict rfl (by simp) (Or.inl rfl)⟩

/-- Witness for claim C6 at an environment whose GitHub request fails. -/
theorem c6_witness :
    (envGithubDown.githubResult = .error ()) ∧
    (get_github_commits envGithubDown "u" ["f"]
        (get_last_check_date envGithubDown "b" "k").1 =
      (.ok [], [.httpGet "u" ["f"]
        (get_last_check_date envGithubDown "b" "k").1, .logException]) ∧
    (watch_files envGithubDown "b" "k" "u" ["f"] "p" "t" "c" "tk").1 =
      .ok () ∧
    (watch_files envGithubDown "b" "k" "u" ["f"] "p" "t" "c" "tk").2.countP
      Effect.isS3Write = 0 ∧
    (watch_files envGithubDown "b" "k" "u" ["f"] "p" "t" "c" "tk").2.countP
      Effect.isSend = 0) :=
  ⟨rfl, c6_network_failure_treated_as_no_commits envGithubDown "b" "k" "u"
    ["f"] "p" "t" "c" "tk" rfl⟩

/-- Witness for claim C7 at an environment whose watermark read fails. -/
theorem c7_witness :
    (envReadFail.s3ReadResult = .error () ∨
      ∃ s, envReadFail.s3ReadResult = .ok s ∧
        utc2datetime (pyStrip s) = none) ∧
    ((get_last_check_date envReadFail "b" "k").1 = envReadFail.nowRead ∧
      Effect.logException ∈ (get_last_check_date envReadFail "b" "k").2) :=
  ⟨Or.inl rfl, c7_read_failure_falls_back_to_now envReadFail "b" "k"
    (Or.inl rfl)⟩

/-- Witness for claim C8 at an environment whose watermark write fails. -/
theorem c8_witness :
    ((get_github_commits envWriteFail "u" ["f"]
        (get_last_check_date envWriteFail "b" "k").1).1 =
      .ok [goodCommit]) ∧
    ([goodCommit] ≠ ([] : List Commit)) ∧
    (envWriteFail.s3WriteResult = .error () ∨
      ∃ st, envWriteFail.s3WriteResult = .ok st ∧ st ≠ some 200) ∧
    ((∃ lg, (lg = Effect.logException ∨ lg = Effect.logError) ∧
      write_check_date envWriteFail (subMinutes envWriteFail.nowWatch 5)
          "b" "k" =
        [.s3Write "b" "k"
          (datetime2utc (subMinutes envWriteFail.nowWatch 5)), lg]) ∧
    (watch_files envWriteFail "b" "k" "u" ["f"] "p" "t" "c" "tk").2.countP
      Effect.isSend = 1) :=
  ⟨rfl, by simp, Or.inl rfl,
    c8_write_failure_still_notifies envWriteFail "b" "k" "u" ["f"] "p" "t"
      "c" "tk" [goodCommit] rfl (by simp) (Or.inl rfl)⟩

/-- Witness for claim C9 at a concrete leap-day instant. -/
theorem c9_witness :
    (⟨2024, 2, 29, 23, 59, 59⟩ : DateTime).Valid ∧
    utc2datetime (datetime2utc ⟨2024, 2, 29, 23, 59, 59⟩) =
      some ⟨2024, 2, 29, 23, 59, 59⟩ :=
  ⟨by decide, utc2datetime_datetime2utc ⟨2024, 2, 29, 23, 59, 59⟩
    (by decide)⟩

/-- Witness for claim C10 at an environment whose Telegram response body
is not JSON. -/
theorem c10_witness :
    (envBadJson.telegramResult = .badJson) ∧
    send_telegram_msg envBadJson "m" "c" "tk" =
      (.error .valueError, [.logInfo, .telegramSend "tk" "c" "m"]) :=
  ⟨rfl, c10_send_raises_on_nonjson_response envBadJson "m" "c" "tk" rfl⟩
